import Mathlib

/-!
Verification development for the asynchronous external-process supervision
engine of the SlicerMHubRunner module (class `ProgressObserver` and its
callers in `src/MHubRunner/MHubRunner.py`).

The embedding is a shallow state-passing model of the Python code.
  * A `ProgressObserver` instance becomes an `Obs` record (the fields set
    in `__init__`).
  * The class-level registry `ProgressObserver._tasks` together with the
    heap of constructed objects becomes a `World`.
  * Python exceptions become `PyExc` values threaded through each
    operation: a function returns the world as mutated up to the raise
    point together with `some exc`, matching the semantics of a Python
    exception escaping mid-function.
  * Callback invocations become `Event` values.  A completion event also
    records the `World` at the moment the callback runs (`atCall`), so
    that properties about what a callback can observe (for example a
    registry query made from inside the callback) can be stated.
  * Wall-clock floats are modelled with exact rationals (`ℚ`): the code
    only adds the constant `1/frequency` and compares, which the spec
    itself qualifies with "within floating-point tolerance".
-/

namespace MHub

/-- Python exceptions that the supervision engine can raise.
`fileNotFound` is raised by `open` on a deleted stdout file, `valueError`
by `list.remove` on a missing element, `callbackError` stands for an
exception thrown by a caller-supplied callback, and `spawnError` for a
`subprocess.Popen` failure. -/
inductive PyExc
  | fileNotFound
  | valueError
  | callbackError
  | spawnError
  deriving DecidableEq, Repr

/-- State of the supervised OS process (`self._proc`). -/
inductive Proc
  | running
  | exited (rc : Int)
  deriving DecidableEq, Repr

/-- `Popen.kill`: forcibly terminate the process; a no-op when it has
already exited (the return code of a killed process is negative, the code
never reads it). -/
def procKill : Proc → Proc
  | .running => .exited (-9)
  | .exited rc => .exited rc

/-- One `ProgressObserver` object: the fields assigned in `__init__`,
plus the state of its stdout temp file and subprocess.
`hasOnStop` / `hasOnProgress` model whether the single-slot callbacks
`_onStop` / `_onProgress` are registered; `onStopRaises` models a
caller-supplied completion callback that throws when invoked. -/
structure Obs where
  cmd : List String
  frequency : ℚ
  timeout : Int
  data : Option (List (String × String))
  disabled : Bool
  secondsElapsed : ℚ
  proc : Proc
  timerActive : Bool
  fileExists : Bool
  fileContent : String
  readptr : Nat
  hasOnStop : Bool
  hasOnProgress : Bool
  onStopRaises : Bool
  deriving DecidableEq, Repr

/-- Global state: the class registry `ProgressObserver._tasks` (a list of
object identities, insertion ordered), the heap of constructed objects,
and a count of temp files leaked by failed constructions. -/
structure World where
  tasks : List Nat
  objs : List (Nat × Obs)
  orphanFiles : Nat
  deriving DecidableEq, Repr

/-- A callback invocation observed by the caller.  `completion` carries
the world at the instant the callback is entered. -/
inductive Event
  | progress (i : Nat) (elapsed : ℚ) (chunk : String)
  | completion (i : Nat) (rc : Int) (output : String)
      (timedOut killed : Bool) (atCall : World)
  deriving DecidableEq, Repr

/-- Result of one engine operation: the world as mutated so far, the
callback invocations that happened, and the exception that escaped, if
any. -/
structure StepResult where
  world : World
  events : List Event
  exc : Option PyExc
  deriving DecidableEq, Repr

/-- Heap lookup by object identity. -/
def lookupA (i : Nat) : List (Nat × Obs) → Option Obs
  | [] => none
  | (j, o) :: rest => if j = i then some o else lookupA i rest

/-- Heap update: mutate the object with identity `i`. -/
def setObsList (i : Nat) (o : Obs) : List (Nat × Obs) → List (Nat × Obs)
  | [] => []
  | (j, p) :: rest =>
      if j = i then (j, o) :: setObsList i o rest
      else (j, p) :: setObsList i o rest

def setObs (w : World) (i : Nat) (o : Obs) : World :=
  { w with objs := setObsList i o w.objs }

/-- Python `list.remove`: delete the first occurrence.  (The caller
checks membership; on a missing element the code raises `ValueError`.) -/
def removeFirst (i : Nat) : List Nat → List Nat
  | [] => []
  | j :: rest => if j = i then rest else j :: removeFirst i rest

/-- Lookup in a Python dict modelled as an association list. -/
def strLookup (k : String) : List (String × String) → Option String
  | [] => none
  | (k2, v) :: rest => if k2 = k then some v else strLookup k rest

/-- The `kwargs` loop of `getTasksWhere`: every filter pair must be
present in the task metadata with exactly that value
(`key not in task.data or task.data[key] != value` fails the match). -/
def matchesFilters (d : List (String × String))
    (filters : List (String × String)) : Bool :=
  filters.all fun kv => strLookup kv.1 d == some kv.2

/-- `ProgressObserver.getTasksWhere(include_disabled, **kwargs)`:
iterate the registry in order; skip tasks whose `data` is `None`; skip
disabled tasks unless `include_disabled`; keep tasks matching every
filter pair. -/
def getTasksWhere (w : World) (includeDisabled : Bool)
    (filters : List (String × String)) : List Nat :=
  w.tasks.filter fun i =>
    match lookupA i w.objs with
    | none => false
    | some o =>
      match o.data with
      | none => false
      | some d =>
        if !includeDisabled && o.disabled then false
        else matchesFilters d filters

/-- `ProgressObserver._stop(returncode, timedout, killed)`:
open and read the stdout temp file (raises if the file is gone), delete
it, then invoke the completion callback if registered.  There is no
try/except inside `_stop` itself: any exception escapes to the caller,
with the mutations made so far kept. -/
def runStop (w : World) (i : Nat) (rc : Int)
    (timedout killed : Bool) : StepResult :=
  match lookupA i w.objs with
  | none => ⟨w, [], none⟩
  | some o =>
    if o.fileExists then
      let stdout := o.fileContent
      let w1 := setObs w i { o with fileExists := false }
      if o.hasOnStop then
        ⟨w1, [.completion i rc stdout timedout killed w1],
          if o.onStopRaises then some .callbackError else none⟩
      else ⟨w1, [], none⟩
    else ⟨w, [], some .fileNotFound⟩

/-- `ProgressObserver._onTimeout`, the per-tick poll.  Order of the
source: disabled check, advance `_seconds_elapsed` by `1/frequency`,
timeout check (`timeout > 0 and elapsed > timeout`: stop timer, kill
process, `_stop(-1, True, False)`, remove from registry), process-exit
check (stop timer, `_stop(returncode, False, False)`, remove), otherwise
read new stdout from the cursor and invoke the progress callback. -/
def pollTask (w : World) (i : Nat) : StepResult :=
  match lookupA i w.objs with
  | none => ⟨w, [], none⟩
  | some o =>
    if o.disabled then ⟨w, [], none⟩
    else
      let o1 := { o with secondsElapsed := o.secondsElapsed + 1 / o.frequency }
      let w1 := setObs w i o1
      if 0 < o1.timeout ∧ (o1.timeout : ℚ) < o1.secondsElapsed then
        let w2 := setObs w1 i { o1 with timerActive := false, proc := procKill o1.proc }
        let r := runStop w2 i (-1) true false
        match r.exc with
        | some e => ⟨r.world, r.events, some e⟩
        | none =>
          if i ∈ r.world.tasks then
            ⟨{ r.world with tasks := removeFirst i r.world.tasks }, r.events, none⟩
          else ⟨r.world, r.events, some .valueError⟩
      else
        match o1.proc with
        | .exited rc =>
          let w2 := setObs w1 i { o1 with timerActive := false }
          let r := runStop w2 i rc false false
          match r.exc with
          | some e => ⟨r.world, r.events, some e⟩
          | none =>
            if i ∈ r.world.tasks then
              ⟨{ r.world with tasks := removeFirst i r.world.tasks }, r.events, none⟩
            else ⟨r.world, r.events, some .valueError⟩
        | .running =>
          if o1.hasOnProgress then
            if o1.fileExists then
              let chunk := o1.fileContent.drop o1.readptr
              let w2 := setObs w1 i { o1 with readptr := o1.fileContent.length }
              ⟨w2, [.progress i o1.secondsElapsed chunk], none⟩
            else ⟨w1, [], some .fileNotFound⟩
          else ⟨w1, [], none⟩

/-- `ProgressObserver.kill()`: set `_disabled`, stop the timer, run
`_stop(-1, False, True)` inside try/except (the exception, if any, is
logged and swallowed), kill the process, then `self._tasks.remove(self)`
with no exception guard (raises `ValueError` when the task has already
removed itself). -/
def killTask (w : World) (i : Nat) : StepResult :=
  match lookupA i w.objs with
  | none => ⟨w, [], none⟩
  | some o =>
    let w1 := setObs w i { o with disabled := true, timerActive := false }
    let r := runStop w1 i (-1) false true
    let w2 :=
      match lookupA i r.world.objs with
      | none => r.world
      | some o2 => setObs r.world i { o2 with proc := procKill o2.proc }
    if i ∈ w2.tasks then
      ⟨{ w2 with tasks := removeFirst i w2.tasks }, r.events, none⟩
    else ⟨w2, r.events, some .valueError⟩

/-- Kill each task of a list in order, stopping at the first exception
(the `killAll` loop body has no exception guard). -/
def killSeq : List Nat → World → StepResult
  | [], w => ⟨w, [], none⟩
  | i :: rest, w =>
    let r := killTask w i
    match r.exc with
    | some e => ⟨r.world, r.events, some e⟩
    | none =>
      let r2 := killSeq rest r.world
      ⟨r2.world, r.events ++ r2.events, r2.exc⟩

/-- `ProgressObserver.killAll()`: iterate over `list(cls._tasks)`, a
snapshot taken before any kill, calling `kill()` on each. -/
def killAllTasks (w : World) : StepResult :=
  killSeq w.tasks w

/-- Constructor arguments of `ProgressObserver.__init__` plus whether
`subprocess.Popen` succeeds for this command. -/
structure SpawnSpec where
  cmd : List String
  frequency : ℚ
  timeout : Int
  data : Option (List (String × String))
  spawnOk : Bool
  deriving DecidableEq, Repr

/-- The field values a freshly constructed observer holds right after
`__init__` returns: timer started, empty stdout file present, cursor at
0, no callbacks registered yet (they are attached afterwards through the
`onStop` / `onProgress` setters). -/
def initialObs (s : SpawnSpec) : Obs :=
  { cmd := s.cmd
    frequency := s.frequency
    timeout := s.timeout
    data := s.data
    disabled := false
    secondsElapsed := 0
    proc := .running
    timerActive := true
    fileExists := true
    fileContent := ""
    readptr := 0
    hasOnStop := false
    hasOnProgress := false
    onStopRaises := false }

/-- Result of running the constructor. -/
structure ConstructResult where
  world : World
  handle : Option Nat
  events : List Event
  exc : Option PyExc
  deriving DecidableEq, Repr

/-- `ProgressObserver.__init__`: create the stdout temp file, spawn the
process (`Popen` may raise, in which case the temp file leaks and the
object is never appended to `_tasks`), start the timer, append self to
the registry.  No callback slot is populated during construction, so no
callback can fire (`events` is always empty). -/
def construct (w : World) (i : Nat) (s : SpawnSpec) : ConstructResult :=
  if s.spawnOk then
    ⟨{ w with tasks := w.tasks ++ [i], objs := w.objs ++ [(i, initialObs s)] },
      some i, [], none⟩
  else
    ⟨{ w with orphanFiles := w.orphanFiles + 1 }, none, [], some .spawnError⟩

/-- `onStop(callback)`: register the single-slot completion callback. -/
def regOnStop (w : World) (i : Nat) : World :=
  match lookupA i w.objs with
  | none => w
  | some o => setObs w i { o with hasOnStop := true }

/-- `onProgress(callback)`: register the single-slot progress callback. -/
def regOnProgress (w : World) (i : Nat) : World :=
  match lookupA i w.objs with
  | none => w
  | some o => setObs w i { o with hasOnProgress := true }

/-- Iterated polling of one task: world after `n` ticks and the
concatenated callback trace. -/
def pollTrace (i : Nat) : Nat → World → World × List Event
  | 0, w => (w, [])
  | n + 1, w =>
    let r := pollTask w i
    let rest := pollTrace i n r.world
    (rest.1, r.events ++ rest.2)

/-- Recognise a completion event. -/
def isCompletion : Event → Bool
  | .completion .. => true
  | .progress .. => false

/-- Formalisation of the wording of claim C7, for comparison with the
source function `getTasksWhere`: the result contains exactly the
registered tasks whose metadata contains every key/value pair of the
given filters (a task with no metadata supplies no pairs, so it
satisfies an empty filter vacuously), excluding disabled tasks unless
`includeDisabled` is set. -/
def claimQueryC7 (w : World) (includeDisabled : Bool)
    (filters : List (String × String)) : List Nat :=
  w.tasks.filter fun i =>
    match lookupA i w.objs with
    | none => false
    | some o =>
      (includeDisabled || !o.disabled) &&
        matchesFilters (o.data.getD []) filters

/-- Observer fields after a poll tick that stays in the running branch:
elapsed time advanced, and the read cursor moved to the end of the file
when a progress callback is registered. -/
def runObsAfter (o : Obs) : Obs :=
  { o with
    secondsElapsed := o.secondsElapsed + 1 / o.frequency
    readptr := if o.hasOnProgress then o.fileContent.length else o.readptr }

/-- Events emitted by a poll tick that stays in the running branch. -/
def runEvents (i : Nat) (o : Obs) : List Event :=
  if o.hasOnProgress then
    [.progress i (o.secondsElapsed + 1 / o.frequency) (o.fileContent.drop o.readptr)]
  else []

/-- Observer fields after the timeout branch of a poll completes:
elapsed advanced, timer stopped, process killed, stdout file deleted. -/
def timeoutObsAfter (o : Obs) : Obs :=
  { o with
    secondsElapsed := o.secondsElapsed + 1 / o.frequency
    timerActive := false
    proc := procKill o.proc
    fileExists := false }

/-- Observer fields after the natural-exit branch of a poll completes:
elapsed advanced, timer stopped, stdout file deleted. -/
def exitObsAfter (o : Obs) : Obs :=
  { o with
    secondsElapsed := o.secondsElapsed + 1 / o.frequency
    timerActive := false
    fileExists := false }

/-- Observer fields after `kill()` completes on a task whose stdout
file is still present. -/
def killObsAfter (o : Obs) : Obs :=
  { o with
    disabled := true
    timerActive := false
    fileExists := false
    proc := procKill o.proc }

/-- A live observer used by the concrete scenarios: frequency 1 Hz, no
timeout, no metadata, both callbacks registered, some captured output. -/
def baseObs : Obs :=
  { cmd := ["docker", "run"]
    frequency := 1
    timeout := 0
    data := none
    disabled := false
    secondsElapsed := 0
    proc := .running
    timerActive := true
    fileExists := true
    fileContent := "out"
    readptr := 0
    hasOnStop := true
    hasOnProgress := true
    onStopRaises := false }

/-- C1 scenarios: a task one tick away from its timeout, a task whose
process has exited with code 1, and a fresh task with a 2 second
timeout polled at 1 Hz. -/
def C1timeoutO : Obs := { baseObs with timeout := 2, secondsElapsed := 2 }

def C1timeoutW : World := ⟨[0], [(0, C1timeoutO)], 0⟩

def C1exitO : Obs := { baseObs with proc := .exited 1 }

def C1exitW : World := ⟨[0], [(0, C1exitO)], 0⟩

def C1runO : Obs := { baseObs with timeout := 2 }

def C1runW : World := ⟨[0], [(0, C1runO)], 0⟩

/-- C2 scenarios: a task whose process exited naturally and which a poll
is about to complete and deregister, and a live task whose completion
callback throws. -/
def C2preW : World := ⟨[0], [(0, { baseObs with proc := .exited 0 })], 0⟩

def C2goneO : Obs :=
  { baseObs with
    fileExists := false
    proc := .exited 0
    timerActive := false }

def C2goneW : World := ⟨[], [(0, C2goneO)], 0⟩

def C2cbO : Obs := { baseObs with onStopRaises := true }

def C2cbW : World := ⟨[0], [(0, C2cbO)], 0⟩

/-- C3 scenarios: a task disabled by kill, and a task that already went
through a natural-exit terminal transition (stdout file deleted, timer
stopped, deregistered). -/
def C3disO : Obs := { baseObs with disabled := true }

def C3disW : World := ⟨[0], [(0, C3disO)], 0⟩

def C3termO : Obs :=
  { baseObs with
    fileExists := false
    proc := .exited 0
    timerActive := false
    secondsElapsed := 5 }

def C3termW : World := ⟨[], [(0, C3termO)], 0⟩

/-- C4 scenario: a registered task whose process has exited but whose
stdout temp file has disappeared, so the read in the terminal
transition fails. -/
def C4o : Obs := { baseObs with fileExists := false, proc := .exited 0 }

def C4w : World := ⟨[0], [(0, C4o)], 0⟩

/-- C4 scenario, timeout call site of `_stop`: a registered running task
already past its 2 second timeout budget whose stdout temp file has
disappeared, so the read in the timeout terminal transition fails. -/
def C4timeoutO : Obs :=
  { baseObs with
    fileExists := false
    timeout := 2
    secondsElapsed := 5 }

def C4timeoutW : World := ⟨[0], [(0, C4timeoutO)], 0⟩

/-- C5 scenario: a live task already past its timeout budget, so the
next tick would fire the timeout transition. -/
def C5o : Obs := { baseObs with timeout := 2, secondsElapsed := 5 }

def C5w : World := ⟨[0], [(0, C5o)], 0⟩

/-- C6 scenario: a registry with three live tasks. -/
def C6o1 : Obs := { baseObs with fileContent := "b" }

def C6o2 : Obs := { baseObs with fileContent := "c" }

def C6w : World := ⟨[0, 1, 2], [(0, baseObs), (1, C6o1), (2, C6o2)], 0⟩

/-- C7 scenarios: an enabled registered task with no metadata, and one
with metadata operation=run, image=x. -/
def C7noneW : World := ⟨[0], [(0, baseObs)], 0⟩

def C7dataO : Obs :=
  { baseObs with data := some [("operation", "run"), ("image", "x")] }

def C7dataW : World := ⟨[0], [(0, C7dataO)], 0⟩

/-- C8 scenario: a constructor call whose process spawn fails, against a
registry already holding one task. -/
def C8spec : SpawnSpec := ⟨["missing-executable"], 2, 0, none, false⟩

def C8w : World := ⟨[5], [(5, baseObs)], 0⟩

/-- C10 scenarios: a tagged task one tick from timeout, and a tagged
task whose process has exited. -/
def C10o : Obs :=
  { baseObs with data := some [("operation", "run")], timeout := 2, secondsElapsed := 2 }

def C10w : World := ⟨[0], [(0, C10o)], 0⟩

def C10exitO : Obs := { baseObs with data := some [("operation", "run")], proc := .exited 0 }

def C10exitW : World := ⟨[0], [(0, C10exitO)], 0⟩

end MHub

namespace MHub

theorem lookupA_setObsList_self {i : Nat} {l : List (Nat × Obs)} {o o2 : Obs}
    (h : lookupA i l = some o) :
    lookupA i (setObsList i o2 l) = some o2 := by
  induction l with
  | nil => simp [lookupA] at h
  | cons p rest ih =>
    obtain ⟨j, q⟩ := p
    by_cases hj : j = i
    · subst hj
      simp [lookupA, setObsList]
    · simp [lookupA, setObsList, hj] at h ⊢
      exact ih h

theorem lookupA_setObsList_ne {i j : Nat} {l : List (Nat × Obs)} {o2 : Obs}
    (h : j ≠ i) :
    lookupA j (setObsList i o2 l) = lookupA j l := by
  induction l with
  | nil => simp [setObsList, lookupA]
  | cons p rest ih =>
    obtain ⟨k, q⟩ := p
    by_cases hk : k = i
    · subst hk
      simp [lookupA, setObsList, Ne.symm h, ih]
    · by_cases hkj : k = j
      · subst hkj
        simp [lookupA, setObsList, hk]
      · simp [lookupA, setObsList, hk, hkj, ih]

theorem setObsList_setObsList {i : Nat} {l : List (Nat × Obs)} {o1 o2 : Obs} :
    setObsList i o2 (setObsList i o1 l) = setObsList i o2 l := by
  induction l with
  | nil => rfl
  | cons p rest ih =>
    obtain ⟨j, q⟩ := p
    by_cases hj : j = i
    · simp [setObsList, hj, ih]
    · simp [setObsList, hj, ih]

theorem setObs_tasks (w : World) (i : Nat) (o : Obs) :
    (setObs w i o).tasks = w.tasks := rfl

theorem setObs_orphanFiles (w : World) (i : Nat) (o : Obs) :
    (setObs w i o).orphanFiles = w.orphanFiles := rfl

theorem setObs_setObs (w : World) (i : Nat) (o1 o2 : Obs) :
    setObs (setObs w i o1) i o2 = setObs w i o2 := by
  simp [setObs, setObsList_setObsList]

theorem lookupA_setObs_self {w : World} {i : Nat} {o o2 : Obs}
    (h : lookupA i w.objs = some o) :
    lookupA i (setObs w i o2).objs = some o2 :=
  lookupA_setObsList_self h

theorem removeFirst_cons_self (i : Nat) (rest : List Nat) :
    removeFirst i (i :: rest) = rest := by
  simp [removeFirst]

theorem runStop_ok {w : World} {i : Nat} {o : Obs} (rc : Int)
    (td kd : Bool)
    (hlk : lookupA i w.objs = some o) (hf : o.fileExists = true)
    (hs : o.hasOnStop = true) (hnr : o.onStopRaises = false) :
    runStop w i rc td kd =
      ⟨setObs w i { o with fileExists := false },
        [.completion i rc o.fileContent td kd (setObs w i { o with fileExists := false })],
        none⟩ := by
  simp [runStop, hlk, hf, hs, hnr]

theorem runStop_noFile {w : World} {i : Nat} {o : Obs} (rc : Int)
    (td kd : Bool)
    (hlk : lookupA i w.objs = some o) (hf : o.fileExists = false) :
    runStop w i rc td kd = ⟨w, [], some .fileNotFound⟩ := by
  simp [runStop, hlk, hf]

theorem runStop_raisingCb {w : World} {i : Nat} {o : Obs} (rc : Int)
    (td kd : Bool)
    (hlk : lookupA i w.objs = some o) (hf : o.fileExists = true)
    (hs : o.hasOnStop = true) (hr : o.onStopRaises = true) :
    runStop w i rc td kd =
      ⟨setObs w i { o with fileExists := false },
        [.completion i rc o.fileContent td kd (setObs w i { o with fileExists := false })],
        some .callbackError⟩ := by
  simp [runStop, hlk, hf, hs, hr]

theorem pollTask_disabled {w : World} {i : Nat} {o : Obs}
    (hlk : lookupA i w.objs = some o) (hd : o.disabled = true) :
    pollTask w i = ⟨w, [], none⟩ := by
  simp [pollTask, hlk, hd]

theorem pollTask_timeout {w : World} {i : Nat} {o : Obs}
    (hlk : lookupA i w.objs = some o) (hd : o.disabled = false)
    (ht : 0 < o.timeout)
    (hcr : (o.timeout : ℚ) < o.secondsElapsed + 1 / o.frequency)
    (hf : o.fileExists = true) (hs : o.hasOnStop = true)
    (hnr : o.onStopRaises = false) (hm : i ∈ w.tasks) :
    pollTask w i =
      ⟨{ setObs w i (timeoutObsAfter o) with tasks := removeFirst i w.tasks },
        [.completion i (-1) o.fileContent true false (setObs w i (timeoutObsAfter o))],
        none⟩ := by
  simp only [pollTask, hlk, hd, Bool.false_eq_true, if_false]
  rw [if_pos ⟨ht, hcr⟩]
  simp [runStop, setObs, setObsList_setObsList, lookupA_setObsList_self hlk,
    hf, hs, hnr, hm, hd, timeoutObsAfter]

theorem pollTask_exit {w : World} {i : Nat} {o : Obs} {rc : Int}
    (hlk : lookupA i w.objs = some o) (hd : o.disabled = false)
    (hnt : ¬(0 < o.timeout ∧ (o.timeout : ℚ) < o.secondsElapsed + 1 / o.frequency))
    (hp : o.proc = .exited rc)
    (hf : o.fileExists = true) (hs : o.hasOnStop = true)
    (hnr : o.onStopRaises = false) (hm : i ∈ w.tasks) :
    pollTask w i =
      ⟨{ setObs w i (exitObsAfter o) with tasks := removeFirst i w.tasks },
        [.completion i rc o.fileContent false false (setObs w i (exitObsAfter o))],
        none⟩ := by
  simp only [pollTask, hlk, hd, Bool.false_eq_true, if_false]
  rw [if_neg hnt]
  simp only [hp]
  simp [runStop, setObs, setObsList_setObsList, lookupA_setObsList_self hlk,
    hf, hs, hnr, hm, hd, hp, exitObsAfter]

theorem pollTask_running {w : World} {i : Nat} {o : Obs}
    (hlk : lookupA i w.objs = some o) (hd : o.disabled = false)
    (hnt : ¬(0 < o.timeout ∧ (o.timeout : ℚ) < o.secondsElapsed + 1 / o.frequency))
    (hp : o.proc = .running) (hf : o.fileExists = true) :
    pollTask w i = ⟨setObs w i (runObsAfter o), runEvents i o, none⟩ := by
  simp only [pollTask, hlk, hd, Bool.false_eq_true, if_false]
  rw [if_neg hnt]
  simp only [hp]
  by_cases hpr : o.hasOnProgress = true
  · simp [hpr, hf, hd, hp, setObs_setObs, runObsAfter, runEvents]
  · simp only [Bool.not_eq_true] at hpr
    simp [hpr, hd, hp, hf, runObsAfter, runEvents]

theorem killTask_live {w : World} {i : Nat} {o : Obs}
    (hlk : lookupA i w.objs = some o) (hf : o.fileExists = true)
    (hs : o.hasOnStop = true) (hnr : o.onStopRaises = false)
    (hm : i ∈ w.tasks) :
    killTask w i =
      ⟨{ setObs w i (killObsAfter o) with tasks := removeFirst i w.tasks },
        [.completion i (-1) o.fileContent false true
          (setObs w i { o with disabled := true, timerActive := false, fileExists := false })],
        none⟩ := by
  simp [killTask, hlk, runStop, setObs, setObsList_setObsList,
    lookupA_setObsList_self hlk, hf, hs, hnr, hm, killObsAfter]

theorem killTask_alreadyGone {w : World} {i : Nat} {o : Obs}
    (hlk : lookupA i w.objs = some o) (hf : o.fileExists = false)
    (hm : i ∉ w.tasks) :
    killTask w i =
      ⟨setObs w i { o with disabled := true, timerActive := false, proc := procKill o.proc },
        [], some .valueError⟩ := by
  simp [killTask, hlk, runStop, setObs, setObsList_setObsList,
    lookupA_setObsList_self hlk, hf, hm]

theorem killTask_noFileStillRegistered {w : World} {i : Nat} {o : Obs}
    (hlk : lookupA i w.objs = some o) (hf : o.fileExists = false)
    (hm : i ∈ w.tasks) :
    killTask w i =
      ⟨{ setObs w i { o with disabled := true, timerActive := false, proc := procKill o.proc } with
          tasks := removeFirst i w.tasks },
        [], none⟩ := by
  simp [killTask, hlk, runStop, setObs, setObsList_setObsList,
    lookupA_setObsList_self hlk, hf, hm]

theorem killTask_raisingCb {w : World} {i : Nat} {o : Obs}
    (hlk : lookupA i w.objs = some o) (hf : o.fileExists = true)
    (hs : o.hasOnStop = true) (hr : o.onStopRaises = true)
    (hm : i ∈ w.tasks) :
    killTask w i =
      ⟨{ setObs w i (killObsAfter o) with tasks := removeFirst i w.tasks },
        [.completion i (-1) o.fileContent false true
          (setObs w i { o with disabled := true, timerActive := false, fileExists := false })],
        none⟩ := by
  simp [killTask, hlk, runStop, setObs, setObsList_setObsList,
    lookupA_setObsList_self hlk, hf, hs, hr, hm, killObsAfter]

theorem runEvents_no_completion (i : Nat) (o : Obs) :
    ∀ e ∈ runEvents i o, isCompletion e = false := by
  unfold runEvents
  split <;> simp [isCompletion]

theorem pollTrace_running (i : Nat) :
    ∀ (n : Nat) (w : World) (o : Obs),
      lookupA i w.objs = some o →
      o.disabled = false → o.proc = .running → o.fileExists = true →
      0 < o.frequency →
      (o.timeout ≤ 0 ∨ o.secondsElapsed + (n : ℚ) / o.frequency ≤ (o.timeout : ℚ)) →
      ∃ o2,
        lookupA i (pollTrace i n w).1.objs = some o2 ∧
        (pollTrace i n w).1.tasks = w.tasks ∧
        (pollTrace i n w).1.orphanFiles = w.orphanFiles ∧
        o2.disabled = false ∧ o2.proc = .running ∧ o2.fileExists = true ∧
        o2.frequency = o.frequency ∧ o2.timeout = o.timeout ∧
        o2.fileContent = o.fileContent ∧ o2.hasOnStop = o.hasOnStop ∧
        o2.hasOnProgress = o.hasOnProgress ∧ o2.onStopRaises = o.onStopRaises ∧
        o2.data = o.data ∧ o2.timerActive = o.timerActive ∧ o2.cmd = o.cmd ∧
        o2.secondsElapsed = o.secondsElapsed + (n : ℚ) / o.frequency ∧
        ∀ e ∈ (pollTrace i n w).2, isCompletion e = false := by
  intro n
  induction n with
  | zero =>
    intro w o hlk hd hp hf hfreq hsafe
    refine ⟨o, ?_⟩
    simp [pollTrace, hlk, hd, hp, hf]
  | succ n ih =>
    intro w o hlk hd hp hf hfreq hsafe
    have hcast : ((n + 1 : ℕ) : ℚ) = (n : ℚ) + 1 := by push_cast; ring
    have hstep : ¬(0 < o.timeout ∧ (o.timeout : ℚ) < o.secondsElapsed + 1 / o.frequency) := by
      rcases hsafe with h | h
      · rintro ⟨h1, _⟩; omega
      · rintro ⟨_, h2⟩
        have h1n : (1 : ℚ) ≤ (n : ℚ) + 1 := by
          have : (0 : ℚ) ≤ (n : ℚ) := Nat.cast_nonneg n
          linarith
        have hle : (1 : ℚ) / o.frequency ≤ ((n : ℚ) + 1) / o.frequency :=
          (div_le_div_iff_of_pos_right hfreq).mpr h1n
        rw [hcast] at h
        linarith
    have hsafe2 : (runObsAfter o).timeout ≤ 0 ∨
        (runObsAfter o).secondsElapsed + (n : ℚ) / (runObsAfter o).frequency
          ≤ ((runObsAfter o).timeout : ℚ) := by
      rcases hsafe with h | h
      · exact Or.inl h
      · right
        show o.secondsElapsed + 1 / o.frequency + (n : ℚ) / o.frequency ≤ (o.timeout : ℚ)
        have hdd : (n : ℚ) / o.frequency + 1 / o.frequency = ((n : ℚ) + 1) / o.frequency :=
          div_add_div_same (n : ℚ) 1 o.frequency
        rw [hcast] at h
        linarith
    have hlk2 : lookupA i (setObs w i (runObsAfter o)).objs = some (runObsAfter o) :=
      lookupA_setObs_self hlk
    obtain ⟨o2, ho2⟩ := ih (setObs w i (runObsAfter o)) (runObsAfter o)
      hlk2 hd hp hf hfreq hsafe2
    refine ⟨o2, ?_⟩
    have hunf : pollTrace i (n + 1) w =
        ((pollTrace i n (pollTask w i).world).1,
          (pollTask w i).events ++ (pollTrace i n (pollTask w i).world).2) := rfl
    rw [hunf, pollTask_running hlk hd hstep hp hf]
    simp only at ho2 ⊢
    obtain ⟨g1, g2, g3, g4, g5, g6, g7, g8, g9, g10, g11, g12, g13, g14, g15, g16, g17⟩ := ho2
    refine ⟨g1, by rw [g2]; rfl, by rw [g3]; rfl, g4, g5, g6, g7, g8, g9, g10, g11, g12, g13, g14, g15, ?_, ?_⟩
    · rw [g16]
      show o.secondsElapsed + 1 / o.frequency + (n : ℚ) / o.frequency
        = o.secondsElapsed + ((n + 1 : ℕ) : ℚ) / o.frequency
      rw [hcast]
      have hdd : (n : ℚ) / o.frequency + 1 / o.frequency = ((n : ℚ) + 1) / o.frequency :=
        div_add_div_same (n : ℚ) 1 o.frequency
      linarith
    · intro e he
      rcases List.mem_append.mp he with h | h
      · exact runEvents_no_completion i o e h
      · exact g17 e h

theorem killSeq_live :
    ∀ (l : List Nat) (w : World),
      l.Nodup → w.tasks = l →
      (∀ j ∈ l, ∃ o, lookupA j w.objs = some o ∧ o.fileExists = true ∧
        o.hasOnStop = true ∧ o.onStopRaises = false) →
      (killSeq l w).exc = none ∧ (killSeq l w).world.tasks = [] ∧
      List.Forall₂ (fun j e => ∃ out wc, e = Event.completion j (-1) out false true wc)
        l (killSeq l w).events := by
  intro l
  induction l with
  | nil =>
    intro w _ htasks _
    refine ⟨rfl, ?_, List.Forall₂.nil⟩
    simpa [killSeq] using htasks
  | cons i rest ih =>
    intro w hnd htasks hlive
    obtain ⟨o, hlk, hf, hs, hnr⟩ := hlive i (List.mem_cons_self i rest)
    have hm : i ∈ w.tasks := by rw [htasks]; exact List.mem_cons_self i rest
    have hkill := killTask_live hlk hf hs hnr hm
    have hnotmem : i ∉ rest := (List.nodup_cons.mp hnd).1
    have hnd2 : rest.Nodup := (List.nodup_cons.mp hnd).2
    have htasks2 : (killTask w i).world.tasks = rest := by
      rw [hkill]
      simp only
      rw [htasks, removeFirst_cons_self]
    have hlive2 : ∀ j ∈ rest, ∃ o2, lookupA j (killTask w i).world.objs = some o2 ∧
        o2.fileExists = true ∧ o2.hasOnStop = true ∧ o2.onStopRaises = false := by
      intro j hj
      obtain ⟨o2, hlk2, hf2, hs2, hnr2⟩ := hlive j (List.mem_cons_of_mem i hj)
      have hne : j ≠ i := fun hji => hnotmem (hji ▸ hj)
      refine ⟨o2, ?_, hf2, hs2, hnr2⟩
      rw [hkill]
      show lookupA j (setObsList i (killObsAfter o) w.objs) = some o2
      rw [lookupA_setObsList_ne hne]
      exact hlk2
    obtain ⟨e1, e2, e3⟩ := ih (killTask w i).world hnd2 htasks2 hlive2
    have hunf : killSeq (i :: rest) w =
        match (killTask w i).exc with
        | some e => ⟨(killTask w i).world, (killTask w i).events, some e⟩
        | none =>
          ⟨(killSeq rest (killTask w i).world).world,
            (killTask w i).events ++ (killSeq rest (killTask w i).world).events,
            (killSeq rest (killTask w i).world).exc⟩ := rfl
    have hexc : (killTask w i).exc = none := by rw [hkill]
    rw [hunf]
    rw [hexc]
    refine ⟨e1, e2, ?_⟩
    have hevs : (killTask w i).events =
        [Event.completion i (-1) o.fileContent false true
          (setObs w i { o with disabled := true, timerActive := false, fileExists := false })] := by
      rw [hkill]
    rw [hevs]
    exact List.Forall₂.cons ⟨o.fileContent, _, rfl⟩ e3

theorem mem_getTasksWhere {w : World} {inc : Bool}
    {filters : List (String × String)} {i : Nat} :
    i ∈ getTasksWhere w inc filters ↔
      i ∈ w.tasks ∧ ∃ o d, lookupA i w.objs = some o ∧ o.data = some d ∧
        (inc = true ∨ o.disabled = false) ∧ matchesFilters d filters = true := by
  rw [getTasksWhere, List.mem_filter]
  cases hlo : lookupA i w.objs with
  | none => simp [hlo]
  | some o =>
    cases hdo : o.data with
    | none => simp [hlo, hdo]
    | some d =>
      cases inc with
      | true => simp [hlo, hdo]
      | false =>
        cases hdis : o.disabled with
        | false => simp [hlo, hdo, hdis]
        | true => simp [hlo, hdo, hdis]

/-- C5: once `kill()` has been invoked the task is disabled before any
teardown action, so every subsequent poll returns immediately without
advancing elapsed time, without triggering the timeout transition, and
without invoking any callback; a kill therefore wins over a timeout that
could apply on the same tick (no hypothesis restricts the timeout
budget), and the completion callback reports `killed=true` with
`timedOut=false`. -/
theorem kill_disables_and_wins (w : World) (i : Nat) (o : Obs)
    (hlk : lookupA i w.objs = some o) (hf : o.fileExists = true)
    (hs : o.hasOnStop = true) (hnr : o.onStopRaises = false)
    (hm : i ∈ w.tasks) :
    killTask w i =
      ⟨{ setObs w i (killObsAfter o) with tasks := removeFirst i w.tasks },
        [.completion i (-1) o.fileContent false true
          (setObs w i { o with disabled := true, timerActive := false, fileExists := false })],
        none⟩ ∧
    (killObsAfter o).disabled = true ∧
    (killObsAfter o).timerActive = false ∧
    pollTask (killTask w i).world i = ⟨(killTask w i).world, [], none⟩ := by
  have hk := killTask_live hlk hf hs hnr hm
  refine ⟨hk, rfl, rfl, ?_⟩
  have hlk2 : lookupA i (killTask w i).world.objs = some (killObsAfter o) := by
    rw [hk]
    exact lookupA_setObsList_self hlk
  exact pollTask_disabled hlk2 rfl

/-- C5 witness: the concrete scenario of a live task five seconds into a
two second timeout budget that is killed externally. -/
theorem kill_disables_and_wins_witness :
    killTask C5w 0 =
      ⟨{ setObs C5w 0 (killObsAfter C5o) with tasks := removeFirst 0 C5w.tasks },
        [.completion 0 (-1) C5o.fileContent false true
          (setObs C5w 0 { C5o with disabled := true, timerActive := false, fileExists := false })],
        none⟩ ∧
    (killObsAfter C5o).disabled = true ∧
    (killObsAfter C5o).timerActive = false ∧
    pollTask (killTask C5w 0).world 0 = ⟨(killTask C5w 0).world, [], none⟩ :=
  kill_disables_and_wins C5w 0 C5o rfl rfl rfl rfl (by decide)

/-- C6: `killAll` iterates over a snapshot of the registry taken before
any kill, so the self-removal performed by each kill skips or repeats no
entry: when every registered task is live, no exception is raised, the
registry is empty afterwards, and the event trace pairs the original
registry elementwise with exactly one `killed=true` completion each. -/
theorem killAll_snapshot (w : World)
    (hnd : w.tasks.Nodup)
    (hlive : ∀ j ∈ w.tasks, ∃ o, lookupA j w.objs = some o ∧ o.fileExists = true ∧
      o.hasOnStop = true ∧ o.onStopRaises = false) :
    (killAllTasks w).exc = none ∧
    (killAllTasks w).world.tasks = [] ∧
    (killAllTasks w).events.length = w.tasks.length ∧
    List.Forall₂ (fun j e => ∃ out wc, e = Event.completion j (-1) out false true wc)
      w.tasks (killAllTasks w).events := by
  obtain ⟨h1, h2, h3⟩ := killSeq_live w.tasks w hnd rfl hlive
  exact ⟨h1, h2, h3.length_eq.symm, h3⟩

/-- C6 witness: a registry with three live tasks, all killed, all
completions delivered, registry empty. -/
theorem killAll_snapshot_witness :
    (killAllTasks C6w).exc = none ∧
    (killAllTasks C6w).world.tasks = [] ∧
    (killAllTasks C6w).events.length = C6w.tasks.length ∧
    List.Forall₂ (fun j e => ∃ out wc, e = Event.completion j (-1) out false true wc)
      C6w.tasks (killAllTasks C6w).events :=
  killAll_snapshot C6w (by decide) (by
    intro j hj
    have hj3 : j = 0 ∨ j = 1 ∨ j = 2 := by simpa [C6w] using hj
    rcases hj3 with rfl | rfl | rfl
    · exact ⟨baseObs, rfl, rfl, rfl, rfl⟩
    · exact ⟨C6o1, rfl, rfl, rfl, rfl⟩
    · exact ⟨C6o2, rfl, rfl, rfl, rfl⟩)

/-- C8: when the process cannot be spawned, construction fails
synchronously with an exception to the immediate caller (no handle, no
callback event), and the registry and heap are unchanged: the failed
task never registers and never polls. -/
theorem spawn_failure_synchronous (w : World) (i : Nat) (s : SpawnSpec)
    (hfail : s.spawnOk = false) :
    (construct w i s).exc = some .spawnError ∧
    (construct w i s).handle = none ∧
    (construct w i s).events = [] ∧
    (construct w i s).world.tasks = w.tasks ∧
    (construct w i s).world.objs = w.objs := by
  simp [construct, hfail]

/-- C8 witness: a failing spawn against a registry holding one task. -/
theorem spawn_failure_synchronous_witness :
    (construct C8w 9 C8spec).exc = some .spawnError ∧
    (construct C8w 9 C8spec).handle = none ∧
    (construct C8w 9 C8spec).events = [] ∧
    (construct C8w 9 C8spec).world.tasks = C8w.tasks ∧
    (construct C8w 9 C8spec).world.objs = C8w.objs :=
  spawn_failure_synchronous C8w 9 C8spec rfl

/-- C2 counterexample: a task completes naturally through a poll (which
deletes the stdout file and removes the task from the registry); the
subsequent `kill()` does propagate an exception, because the final
`self._tasks.remove(self)` is outside the try/except and raises
`ValueError` on the already-removed task.  This falsifies the part of
the claim stating that the double removal from the registry does not
raise and that exceptions in the kill path never propagate. -/
theorem kill_after_completion_counterexample :
    (pollTask C2preW 0).exc = none ∧
    (pollTask C2preW 0).world.tasks = [] ∧
    (killTask (pollTask C2preW 0).world 0).events = [] ∧
    (killTask (pollTask C2preW 0).world 0).exc = some PyExc.valueError := by
  decide

/-- C2 amended: calling `kill()` on a task that already completed
naturally and left the registry does not invoke the completion callback
a second time, and exceptions raised inside `_stop` (including one
thrown by the caller-supplied completion callback on a live task) are
caught and logged; but `kill()` itself then raises `ValueError` from the
final unguarded registry removal, since the completed task already
removed itself. -/
theorem kill_after_completion_amended (w : World) (i : Nat) (o : Obs)
    (hlk : lookupA i w.objs = some o) :
    (o.fileExists = false → i ∉ w.tasks →
      (killTask w i).events = [] ∧ (killTask w i).exc = some .valueError) ∧
    (o.fileExists = true → o.hasOnStop = true → o.onStopRaises = true → i ∈ w.tasks →
      (killTask w i).exc = none ∧
      ∃ wc, (killTask w i).events = [.completion i (-1) o.fileContent false true wc]) := by
  constructor
  · intro hf hm
    rw [killTask_alreadyGone hlk hf hm]
    exact ⟨rfl, rfl⟩
  · intro hf hs hr hm
    rw [killTask_raisingCb hlk hf hs hr hm]
    exact ⟨rfl, _, rfl⟩

/-- C2 witness: both amended branches at concrete worlds — the
already-completed task and the live task with a throwing callback. -/
theorem kill_after_completion_amended_witness :
    ((killTask C2goneW 0).events = [] ∧ (killTask C2goneW 0).exc = some .valueError) ∧
    ((killTask C2cbW 0).exc = none ∧
      ∃ wc, (killTask C2cbW 0).events = [.completion 0 (-1) C2cbO.fileContent false true wc]) :=
  ⟨(kill_after_completion_amended C2goneW 0 C2goneO rfl).1 rfl (by decide),
   (kill_after_completion_amended C2cbW 0 C2cbO rfl).2 rfl rfl rfl (by decide)⟩

/-- C3 counterexample: polling a task that already went through a
natural-exit terminal transition is not a no-op: `_seconds_elapsed`
advances from 5 to 6 and a file-not-found error escapes the poll,
falsifying the claim that no state change occurs and no exception
escapes. -/
theorem poll_after_terminal_counterexample :
    (pollTask C3termW 0).exc = some PyExc.fileNotFound ∧
    (pollTask C3termW 0).world ≠ C3termW ∧
    (lookupA 0 (pollTask C3termW 0).world.objs).map Obs.secondsElapsed = some 6 := by
  have h6 : (lookupA 0 (pollTask C3termW 0).world.objs).map Obs.secondsElapsed = some 6 := by
    simp [pollTask, C3termW, C3termO, baseObs, lookupA, runStop, setObs, setObsList]
    norm_num
  refine ⟨by decide, ?_, h6⟩
  intro heq
  rw [heq] at h6
  simp [C3termW, C3termO, baseObs, lookupA] at h6

/-- C3 amended: after `kill()` the disabled flag makes a further poll a
genuine no-op; after a natural-exit or timeout terminal transition the
schedule is stopped, but a poll that does run is not a no-op — it
advances elapsed time and raises a file-not-found error from the
deleted output file — although the completion callback is never invoked
a second time. -/
theorem poll_after_terminal_amended (w : World) (i : Nat) (o : Obs)
    (hlk : lookupA i w.objs = some o) :
    (o.disabled = true → pollTask w i = ⟨w, [], none⟩) ∧
    (∀ rc, o.disabled = false → o.fileExists = false → o.proc = .exited rc →
      ¬(0 < o.timeout ∧ (o.timeout : ℚ) < o.secondsElapsed + 1 / o.frequency) →
      (pollTask w i).events = [] ∧ (pollTask w i).exc = some .fileNotFound) ∧
    (o.disabled = false → o.fileExists = false → 0 < o.timeout →
      (o.timeout : ℚ) < o.secondsElapsed + 1 / o.frequency →
      (pollTask w i).events = [] ∧ (pollTask w i).exc = some .fileNotFound) := by
  refine ⟨fun hd => pollTask_disabled hlk hd, ?_, ?_⟩
  · intro rc hd hf hp hnt
    simp only [pollTask, hlk, hd, Bool.false_eq_true, if_false]
    rw [if_neg hnt]
    simp only [hp]
    simp [runStop, setObs, setObsList_setObsList, lookupA_setObsList_self hlk, hf]
  · intro hd hf ht hcr
    simp only [pollTask, hlk, hd, Bool.false_eq_true, if_false]
    rw [if_pos ⟨ht, hcr⟩]
    simp [runStop, setObs, setObsList_setObsList, lookupA_setObsList_self hlk, hf]

/-- C3 witness: the no-op branch on a killed (disabled) task and the
raising branch on a naturally-terminated task. -/
theorem poll_after_terminal_amended_witness :
    (pollTask C3disW 0 = ⟨C3disW, [], none⟩) ∧
    ((pollTask C3termW 0).events = [] ∧ (pollTask C3termW 0).exc = some .fileNotFound) :=
  ⟨(poll_after_terminal_amended C3disW 0 C3disO rfl).1 rfl,
   (poll_after_terminal_amended C3termW 0 C3termO rfl).2.1 0 rfl rfl rfl (by decide)⟩

/-- C4 counterexample: when reading the captured output fails during a
terminal transition on the poll path — at the natural-exit call site of
`_stop` and equally at the timeout call site — the exception escapes
into the scheduler, the completion callback is not invoked, and the
task is not even removed from the registry, falsifying the claim that
output-file I/O errors during the terminal transition are logged, not
escalated, with the completion callback still invoked. -/
theorem stop_io_error_counterexample :
    ((pollTask C4w 0).exc = some PyExc.fileNotFound ∧
      (pollTask C4w 0).events = [] ∧
      (pollTask C4w 0).world.tasks = [0]) ∧
    ((pollTask C4timeoutW 0).exc = some PyExc.fileNotFound ∧
      (pollTask C4timeoutW 0).events = [] ∧
      (pollTask C4timeoutW 0).world.tasks = [0]) := by
  refine ⟨by decide, ?_, ?_, ?_⟩ <;>
    norm_num [pollTask, C4timeoutW, C4timeoutO, baseObs, lookupA, runStop,
      setObs, setObsList, procKill]

/-- C4 amended: on the kill path an output-file I/O error inside `_stop`
is caught and logged and the teardown still completes (task
deregistered, no exception), though the completion callback is skipped;
on the poll path the same error propagates into the scheduler at both
call sites of `_stop` — the natural-exit transition and the timeout
transition — so no completion callback fires and the task stays
registered. -/
theorem stop_io_error_amended (w : World) (i : Nat) (o : Obs)
    (hlk : lookupA i w.objs = some o) (hf : o.fileExists = false) :
    (i ∈ w.tasks →
      (killTask w i).exc = none ∧ (killTask w i).events = [] ∧
      (killTask w i).world.tasks = removeFirst i w.tasks) ∧
    (∀ rc, o.disabled = false → o.proc = .exited rc →
      ¬(0 < o.timeout ∧ (o.timeout : ℚ) < o.secondsElapsed + 1 / o.frequency) →
      (pollTask w i).exc = some .fileNotFound ∧ (pollTask w i).events = [] ∧
      (pollTask w i).world.tasks = w.tasks) ∧
    (o.disabled = false → 0 < o.timeout →
      (o.timeout : ℚ) < o.secondsElapsed + 1 / o.frequency →
      (pollTask w i).exc = some .fileNotFound ∧ (pollTask w i).events = [] ∧
      (pollTask w i).world.tasks = w.tasks) := by
  refine ⟨?_, ?_, ?_⟩
  · intro hm
    rw [killTask_noFileStillRegistered hlk hf hm]
    exact ⟨rfl, rfl, rfl⟩
  · intro rc hd hp hnt
    simp only [pollTask, hlk, hd, Bool.false_eq_true, if_false]
    rw [if_neg hnt]
    simp only [hp]
    simp [runStop, setObs, setObsList_setObsList, lookupA_setObsList_self hlk, hf]
  · intro hd ht hcr
    simp only [pollTask, hlk, hd, Bool.false_eq_true, if_false]
    rw [if_pos ⟨ht, hcr⟩]
    simp [runStop, setObs, setObsList_setObsList, lookupA_setObsList_self hlk, hf]

/-- C4 witness: all three amended branches — the kill path and the
natural-exit poll path on the exited task with the missing stdout file,
and the timeout poll path on the running task past its timeout budget
with the missing stdout file. -/
theorem stop_io_error_amended_witness :
    ((killTask C4w 0).exc = none ∧ (killTask C4w 0).events = [] ∧
      (killTask C4w 0).world.tasks = removeFirst 0 C4w.tasks) ∧
    ((pollTask C4w 0).exc = some .fileNotFound ∧ (pollTask C4w 0).events = [] ∧
      (pollTask C4w 0).world.tasks = C4w.tasks) ∧
    ((pollTask C4timeoutW 0).exc = some .fileNotFound ∧
      (pollTask C4timeoutW 0).events = [] ∧
      (pollTask C4timeoutW 0).world.tasks = C4timeoutW.tasks) :=
  ⟨(stop_io_error_amended C4w 0 C4o rfl rfl).1 (by decide),
   (stop_io_error_amended C4w 0 C4o rfl rfl).2.1 0 rfl rfl (by decide),
   (stop_io_error_amended C4timeoutW 0 C4timeoutO rfl rfl).2.2 rfl (by decide)
     (by norm_num [C4timeoutO, baseObs])⟩

/-- C7 counterexample: with an empty filter, the characterization stated by the claim (result contains exactly the registered non-disabled
tasks whose metadata contains every filter pair — vacuously true of an
empty filter) includes a registered enabled task whose `data` is `None`,
but `getTasksWhere` unconditionally skips such tasks
(`if task.data is None: continue`), so the results differ. -/
theorem query_filter_counterexample :
    claimQueryC7 C7noneW false [] = [0] ∧
    getTasksWhere C7noneW false [] = [] := by
  decide

/-- C7 amended: a registry query returns exactly the registered tasks
that *have* metadata containing every key/value pair of the filters,
excluding disabled tasks unless `includeDisabled` is set; a task with no
metadata matches no query at all, not even the empty one.  Concretely, a
task with metadata operation=run, image=x is returned by the
operation=run query and by the operation=run, image=x query, but not by
the operation=update query. -/
theorem query_filter_amended :
    (∀ (w : World) (inc : Bool) (filters : List (String × String)) (i : Nat),
      i ∈ getTasksWhere w inc filters ↔
        i ∈ w.tasks ∧ ∃ o d, lookupA i w.objs = some o ∧ o.data = some d ∧
          (inc = true ∨ o.disabled = false) ∧ matchesFilters d filters = true) ∧
    getTasksWhere C7dataW false [("operation", "run")] = [0] ∧
    getTasksWhere C7dataW false [("operation", "run"), ("image", "x")] = [0] ∧
    getTasksWhere C7dataW false [("operation", "update")] = [] :=
  ⟨fun _ _ _ _ => mem_getTasksWhere, by decide, by decide, by decide⟩

/-- C10: for each of the three terminal transitions the completion
callback runs while the task is still present in the registry — removal
happens only afterwards.  For the timeout and natural-exit transitions
the task is moreover still enabled at that instant, so a registry query
issued from inside the callback with `includeDisabled=false` still
returns the terminating task (for any filters its metadata matches);
after the kill transition the callback still sees the task registered,
though disabled. -/
theorem completion_sees_registered_task (w : World) (i : Nat) (o : Obs)
    (hlk : lookupA i w.objs = some o) (hf : o.fileExists = true)
    (hs : o.hasOnStop = true) (hnr : o.onStopRaises = false)
    (hm : i ∈ w.tasks) :
    (o.disabled = false → 0 < o.timeout →
      (o.timeout : ℚ) < o.secondsElapsed + 1 / o.frequency →
      ∃ wc, (pollTask w i).events = [.completion i (-1) o.fileContent true false wc] ∧
        i ∈ wc.tasks ∧ wc.tasks = w.tasks ∧
        (pollTask w i).world.tasks = removeFirst i w.tasks ∧
        ∀ d filters, o.data = some d → matchesFilters d filters = true →
          i ∈ getTasksWhere wc false filters) ∧
    (∀ rc, o.disabled = false →
      ¬(0 < o.timeout ∧ (o.timeout : ℚ) < o.secondsElapsed + 1 / o.frequency) →
      o.proc = .exited rc →
      ∃ wc, (pollTask w i).events = [.completion i rc o.fileContent false false wc] ∧
        i ∈ wc.tasks ∧ wc.tasks = w.tasks ∧
        (pollTask w i).world.tasks = removeFirst i w.tasks ∧
        ∀ d filters, o.data = some d → matchesFilters d filters = true →
          i ∈ getTasksWhere wc false filters) ∧
    (∃ wc, (killTask w i).events = [.completion i (-1) o.fileContent false true wc] ∧
      i ∈ wc.tasks ∧ wc.tasks = w.tasks ∧
      (killTask w i).world.tasks = removeFirst i w.tasks) := by
  refine ⟨?_, ?_, ?_⟩
  · intro hd ht hcr
    rw [pollTask_timeout hlk hd ht hcr hf hs hnr hm]
    refine ⟨setObs w i (timeoutObsAfter o), rfl, hm, rfl, rfl, ?_⟩
    intro d filters hdd hmf
    rw [mem_getTasksWhere]
    refine ⟨hm, timeoutObsAfter o, d, lookupA_setObs_self hlk, ?_, Or.inr hd, hmf⟩
    show o.data = some d
    exact hdd
  · intro rc hd hnt hp
    rw [pollTask_exit hlk hd hnt hp hf hs hnr hm]
    refine ⟨setObs w i (exitObsAfter o), rfl, hm, rfl, rfl, ?_⟩
    intro d filters hdd hmf
    rw [mem_getTasksWhere]
    refine ⟨hm, exitObsAfter o, d, lookupA_setObs_self hlk, ?_, Or.inr hd, hmf⟩
    show o.data = some d
    exact hdd
  · rw [killTask_live hlk hf hs hnr hm]
    exact ⟨setObs w i { o with disabled := true, timerActive := false, fileExists := false },
      rfl, hm, rfl, rfl⟩

/-- C10 witness: the timeout, natural-exit and kill transitions on
concrete tagged tasks; in each case the callback-time
world of the completion event still registers task 0, and for timeout and natural exit the
operation=run query still returns it with includeDisabled false. -/
theorem completion_sees_registered_task_witness :
    (∃ wc, (pollTask C10w 0).events =
        [.completion 0 (-1) C10o.fileContent true false wc] ∧
      0 ∈ wc.tasks ∧ 0 ∈ getTasksWhere wc false [("operation", "run")]) ∧
    (∃ wc, (pollTask C10exitW 0).events =
        [.completion 0 0 C10exitO.fileContent false false wc] ∧
      0 ∈ wc.tasks ∧ 0 ∈ getTasksWhere wc false [("operation", "run")]) ∧
    (∃ wc, (killTask C10w 0).events =
        [.completion 0 (-1) C10o.fileContent false true wc] ∧
      0 ∈ wc.tasks) := by
  have h := completion_sees_registered_task C10w 0 C10o rfl rfl rfl rfl (by decide)
  have hexit := completion_sees_registered_task C10exitW 0 C10exitO rfl rfl rfl rfl (by decide)
  refine ⟨?_, ?_, ?_⟩
  · obtain ⟨wc, h1, h2, h3, h4, h5⟩ :=
      h.1 rfl (by decide) (by norm_num [C10o, baseObs])
    exact ⟨wc, h1, h2, h5 _ _ rfl (by decide)⟩
  · obtain ⟨wc, h1, h2, h3, h4, h5⟩ :=
      hexit.2.1 0 rfl (by decide) rfl
    exact ⟨wc, h1, h2, h5 _ _ rfl (by decide)⟩
  · obtain ⟨wc, h1, h2, h3, h4⟩ := h.2.2
    exact ⟨wc, h1, h2⟩

/-- C1: for a non-disabled task a poll first advances elapsed time by
1/frequency, then (branch 1) on `timeout > 0` and `elapsed > timeout`
stops the schedule, kills the process, invokes the completion callback
with (-1, capturedOutput, timedOut=true, killed=false) and only then
removes the task from the registry; else (branch 2) on process exit it
invokes completion with (returncode, capturedOutput, false, false) and
removes the task; else (branch 3) it delivers the output produced since
the cursor to the progress callback.  Moreover (4) after N polls without
termination elapsed equals N/frequency exactly, and (5) with a positive
timeout the timeout completion fires on the first poll whose elapsed
value exceeds the timeout and on no earlier poll. -/
theorem progressObserver_poll_contract (w : World) (i : Nat) (o : Obs)
    (hlk : lookupA i w.objs = some o) (hd : o.disabled = false)
    (hfreq : 0 < o.frequency) :
    (0 < o.timeout → (o.timeout : ℚ) < o.secondsElapsed + 1 / o.frequency →
      o.fileExists = true → o.hasOnStop = true → o.onStopRaises = false → i ∈ w.tasks →
      pollTask w i =
        ⟨{ setObs w i (timeoutObsAfter o) with tasks := removeFirst i w.tasks },
          [.completion i (-1) o.fileContent true false (setObs w i (timeoutObsAfter o))],
          none⟩ ∧
      (timeoutObsAfter o).timerActive = false ∧
      (timeoutObsAfter o).proc = procKill o.proc) ∧
    (∀ rc, ¬(0 < o.timeout ∧ (o.timeout : ℚ) < o.secondsElapsed + 1 / o.frequency) →
      o.proc = .exited rc → o.fileExists = true → o.hasOnStop = true →
      o.onStopRaises = false → i ∈ w.tasks →
      pollTask w i =
        ⟨{ setObs w i (exitObsAfter o) with tasks := removeFirst i w.tasks },
          [.completion i rc o.fileContent false false (setObs w i (exitObsAfter o))],
          none⟩) ∧
    (¬(0 < o.timeout ∧ (o.timeout : ℚ) < o.secondsElapsed + 1 / o.frequency) →
      o.proc = .running → o.fileExists = true → o.hasOnProgress = true →
      pollTask w i =
        ⟨setObs w i (runObsAfter o),
          [.progress i (o.secondsElapsed + 1 / o.frequency) (o.fileContent.drop o.readptr)],
          none⟩) ∧
    (∀ n : Nat, o.proc = .running → o.fileExists = true → o.secondsElapsed = 0 →
      (o.timeout ≤ 0 ∨ (n : ℚ) / o.frequency ≤ (o.timeout : ℚ)) →
      ∃ o2, lookupA i (pollTrace i n w).1.objs = some o2 ∧
        o2.secondsElapsed = (n : ℚ) / o.frequency) ∧
    (∀ n : Nat, o.proc = .running → o.fileExists = true → o.secondsElapsed = 0 →
      o.hasOnStop = true → o.onStopRaises = false → i ∈ w.tasks → 0 < o.timeout →
      (n : ℚ) / o.frequency ≤ (o.timeout : ℚ) →
      (o.timeout : ℚ) < ((n + 1 : ℕ) : ℚ) / o.frequency →
      (∀ e ∈ (pollTrace i n w).2, isCompletion e = false) ∧
      ∃ wc, (pollTask (pollTrace i n w).1 i).events =
          [.completion i (-1) o.fileContent true false wc] ∧
        (pollTask (pollTrace i n w).1 i).exc = none ∧
        (pollTask (pollTrace i n w).1 i).world.tasks = removeFirst i w.tasks) := by
  refine ⟨?_, ?_, ?_, ?_, ?_⟩
  · intro ht hcr hf hs hnr hm
    exact ⟨pollTask_timeout hlk hd ht hcr hf hs hnr hm, rfl, rfl⟩
  · intro rc hnt hp hf hs hnr hm
    exact pollTask_exit hlk hd hnt hp hf hs hnr hm
  · intro hnt hp hf hpr
    rw [pollTask_running hlk hd hnt hp hf]
    simp [runEvents, hpr]
  · intro n hp hf he0 hsafe
    have hsafe2 : o.timeout ≤ 0 ∨
        o.secondsElapsed + (n : ℚ) / o.frequency ≤ (o.timeout : ℚ) := by
      rcases hsafe with h | h
      · exact Or.inl h
      · right; rw [he0, zero_add]; exact h
    obtain ⟨o2, g1, g2, g3, g4, g5, g6, g7, g8, g9, g10, g11, g12, g13, g14, g15, g16, g17⟩ :=
      pollTrace_running i n w o hlk hd hp hf hfreq hsafe2
    refine ⟨o2, g1, ?_⟩
    rw [g16, he0, zero_add]
  · intro n hp hf he0 hs hnr hm ht hle hcr
    have hsafe2 : o.timeout ≤ 0 ∨
        o.secondsElapsed + (n : ℚ) / o.frequency ≤ (o.timeout : ℚ) := by
      right; rw [he0, zero_add]; exact hle
    obtain ⟨o2, g1, g2, g3, g4, g5, g6, g7, g8, g9, g10, g11, g12, g13, g14, g15, g16, g17⟩ :=
      pollTrace_running i n w o hlk hd hp hf hfreq hsafe2
    refine ⟨g17, ?_⟩
    have ht2 : 0 < o2.timeout := by rw [g8]; exact ht
    have hcr2 : (o2.timeout : ℚ) < o2.secondsElapsed + 1 / o2.frequency := by
      rw [g8, g16, g7, he0, zero_add]
      have hdd : (n : ℚ) / o.frequency + 1 / o.frequency = ((n : ℚ) + 1) / o.frequency :=
        div_add_div_same (n : ℚ) 1 o.frequency
      have hcast : ((n + 1 : ℕ) : ℚ) = (n : ℚ) + 1 := by push_cast; ring
      rw [hcast] at hcr
      linarith
    have hs2 : o2.hasOnStop = true := by rw [g10]; exact hs
    have hnr2 : o2.onStopRaises = false := by rw [g12]; exact hnr
    have hm2 : i ∈ (pollTrace i n w).1.tasks := by rw [g2]; exact hm
    have hkey := pollTask_timeout g1 g4 ht2 hcr2 g6 hs2 hnr2 hm2
    rw [hkey]
    rw [g9, g2]
    exact ⟨_, rfl, rfl, rfl⟩

/-- C1 witness: the branch behaviors and the N-poll facts on concrete
tasks — a task one tick past a 2 second timeout, a task whose process
exited with code 1, and a fresh 1 Hz task with a 2 second timeout, whose
first 2 polls deliver only progress and whose third poll delivers the
timeout completion. -/
theorem progressObserver_poll_contract_witness :
    (pollTask C1timeoutW 0).events =
      [.completion 0 (-1) C1timeoutO.fileContent true false
        (setObs C1timeoutW 0 (timeoutObsAfter C1timeoutO))] ∧
    (pollTask C1exitW 0).events =
      [.completion 0 1 C1exitO.fileContent false false
        (setObs C1exitW 0 (exitObsAfter C1exitO))] ∧
    pollTask C1runW 0 =
      ⟨setObs C1runW 0 (runObsAfter C1runO),
        [.progress 0 (C1runO.secondsElapsed + 1 / C1runO.frequency)
          (C1runO.fileContent.drop C1runO.readptr)],
        none⟩ ∧
    (∃ o2, lookupA 0 (pollTrace 0 2 C1runW).1.objs = some o2 ∧
      o2.secondsElapsed = ((2 : ℕ) : ℚ) / C1runO.frequency) ∧
    ((∀ e ∈ (pollTrace 0 2 C1runW).2, isCompletion e = false) ∧
      ∃ wc, (pollTask (pollTrace 0 2 C1runW).1 0).events =
          [.completion 0 (-1) C1runO.fileContent true false wc] ∧
        (pollTask (pollTrace 0 2 C1runW).1 0).exc = none ∧
        (pollTask (pollTrace 0 2 C1runW).1 0).world.tasks = removeFirst 0 C1runW.tasks) := by
  have h1 := progressObserver_poll_contract C1timeoutW 0 C1timeoutO rfl rfl
    (by norm_num [C1timeoutO, baseObs])
  have h2 := progressObserver_poll_contract C1exitW 0 C1exitO rfl rfl
    (by norm_num [C1exitO, baseObs])
  have h3 := progressObserver_poll_contract C1runW 0 C1runO rfl rfl
    (by norm_num [C1runO, baseObs])
  refine ⟨?_, ?_, ?_, ?_, ?_⟩
  · rw [(h1.1 (by decide) (by norm_num [C1timeoutO, baseObs]) rfl rfl rfl (by decide)).1]
  · rw [h2.2.1 1 (by norm_num [C1exitO, baseObs]) rfl rfl rfl rfl (by decide)]
  · exact h3.2.2.1 (by norm_num [C1runO, baseObs]) rfl rfl rfl
  · exact h3.2.2.2.1 2 rfl rfl rfl (Or.inr (by norm_num [C1runO, baseObs]))
  · exact h3.2.2.2.2 2 rfl rfl rfl rfl rfl (by decide) (by decide)
      (by norm_num [C1runO, baseObs]) (by norm_num [C1runO, baseObs])

